import Mathlib

/-!
Verification of the `arb-deploy` deployment orchestrator
(`scripts/arb_deploy.py`): topology generation, build-cache
bootstrap, halt/teardown, and deploy-phase sequencing.

The Python source is shallowly embedded: pure string generation becomes
Lean string functions; the side effects of the orchestrator become an explicit
trace of steps driven by an environment that supplies the outputs and
exit codes of the external commands; docker container state becomes an
explicit list of containers.
-/

set_option maxRecDepth 16384

namespace ArbDeploy

/-- Python `range(lo, hi)` over machine integers: the ascending list
`lo, lo+1, ..., hi-1`, empty when `hi ≤ lo`. -/
def pyRange (lo hi : Int) : List Int :=
  (List.range (hi - lo).toNat).map (fun k : Nat => lo + (k : Int))

/-- Modelled from the spec: `os.path.abspath` resolves a path against the
process working directory, which the spec (§9) treats as a fixed workspace
root for one deploy invocation; we fix it to `/work`. Absolute paths are
returned unchanged. -/
def abspath (p : String) : String :=
  if p.startsWith "/" then p else "/work/" ++ p

/-- Constant `ROOT_DIR = os.path.abspath(os.path.dirname(os.path.dirname(...)))`:
the repository root, a fixed absolute path; we fix it to `/repo`. -/
def ROOT_DIR : String := "/repo"

/-- Constant `DOCKER_COMPOSE_FILENAME` from the source. -/
def DOCKER_COMPOSE_FILENAME : String := "docker-compose.yml"

/-- Modelled from the spec: `setup_states.VALIDATOR_STATES` and
`setup_states.VALIDATOR_STATE` live in `setup_states.py`, which is not
under `src/`; the spec (§3, NodeStateDirectory) describes one directory
per node under a common state root, with a format-string path pattern
parameterized by the node index.  `states_path i` is the absolute
per-node state path the source computes as
`os.path.abspath(os.path.join(VALIDATOR_STATES, VALIDATOR_STATE)) % i`. -/
def states_path (i : Int) : String :=
  "/work/validator-states/validator" ++ toString i

/-- Template `COMPOSE_HEADER % (state_abspath, contract_abspath, cvalidator,
dockerfile, avm)`: the coordinator block of the docker-compose document,
with the five `%s` parameters substituted. -/
def compose_header (state_abspath contract_abspath cvalidator dockerfile avm : String) : String :=
  "# Machine generated by `arb-deploy`. Do not version control.\n" ++
  "version: \x273\x27\n" ++
  "services:\n" ++
  "    dockerhost:\n" ++
  "        image: qoomon/docker-host\n" ++
  "        cap_add: [ \x27NET_ADMIN\x27, \x27NET_RAW\x27 ]\n" ++
  "        restart: on-failure\n" ++
  "\n" ++
  "    arb-validator-coordinator:\n" ++
  "        depends_on:\n" ++
  "            - dockerhost\n" ++
  "        volumes:\n" ++
  "            - " ++ state_abspath ++ ":/home/user/state\n" ++
  "            - " ++ contract_abspath ++ ":/home/user/contract.ao\n" ++
  "        image: arb-validator\n" ++
  "        build:\n" ++
  "            context: " ++ cvalidator ++ "\n" ++
  "            dockerfile: " ++ dockerfile ++ "\n" ++
  "        environment:\n" ++
  "            - ID=0\n" ++
  "            - WAIT_FOR=dockerhost:7546\n" ++
  "            - ETH_URL=ws://dockerhost:7546\n" ++
  "            - AVM=" ++ avm ++ "\n" ++
  "        ports:\n" ++
  "            - \x271235:1235\x27\n" ++
  "            - \x271236:1236\x27\n"

/-- Template `COMPOSE_VALIDATOR % (validator_id, state_abspath, contract_abspath,
validator_id, avm)`: one peer-validator block, with the `%d`/`%s`
parameters substituted (the validator id appears twice: in the service
name and as the declared `ID`). -/
def compose_validator (validator_id : Int) (state_abspath contract_abspath avm : String) : String :=
  "\n" ++
  "    arb-validator" ++ toString validator_id ++ ":\n" ++
  "        depends_on:\n" ++
  "            - dockerhost\n" ++
  "        volumes:\n" ++
  "            - " ++ state_abspath ++ ":/home/user/state\n" ++
  "            - " ++ contract_abspath ++ ":/home/user/contract.ao\n" ++
  "        image: arb-validator\n" ++
  "        environment:\n" ++
  "            - ID=" ++ toString validator_id ++ "\n" ++
  "            - WAIT_FOR=arb-validator-coordinator:1236\n" ++
  "            - ETH_URL=ws://dockerhost:7546\n" ++
  "            - COORDINATOR_URL=wss://arb-validator-coordinator:1236/ws\n" ++
  "            - AVM=" ++ avm ++ "\n"

/-- Constant `DOCKERFILE_CACHE` from the source: the minimal multi-stage build
description used to materialize a build-cache image. -/
def DOCKERFILE_CACHE : String :=
  "FROM alpine:3.9\n" ++
  "RUN mkdir /build /cpp-build /rocksdb\n" ++
  "FROM scratch\n" ++
  "COPY --from=0 /cpp-build /cpp-build\n" ++
  "COPY --from=0 /rocksdb /rocksdb\n" ++
  "COPY --from=0 /build /build"

/-- The full contents `deploy` writes to `docker-compose.yml`:
`compose_header(states_path % 0, contract, ROOT_DIR/packages,
"arb-validator.Dockerfile", avm)` followed by
`"".join([compose_validator(i, states_path % i, contract, avm)
for i in range(1, n_validators)])`. -/
def deploy_contents (contract_name : String) (n_validators : Int) (avm : String) : String :=
  compose_header (states_path 0) (abspath contract_name)
      (abspath (ROOT_DIR ++ "/packages")) "arb-validator.Dockerfile" avm
    ++ String.join ((pyRange 1 n_validators).map
        (fun i => compose_validator i (states_path i) (abspath contract_name) avm))

/-! Structured (block-level) view of the generated document, used to state
the topology-shape properties.  Rendering a block yields exactly the text
the source templates produces for it. -/

/-- Parameters of the coordinator block, as passed to `compose_header`. -/
structure HeaderBlock where
  state_abspath : String
  contract_abspath : String
  context : String
  dockerfile : String
  avm : String
deriving DecidableEq

/-- Parameters of one peer block, as passed to `compose_validator`. -/
structure PeerBlock where
  validator_id : Int
  state_abspath : String
  contract_abspath : String
  avm : String
deriving DecidableEq

/-- Render the coordinator block through the source header template. -/
def renderHeader (h : HeaderBlock) : String :=
  compose_header h.state_abspath h.contract_abspath h.context h.dockerfile h.avm

/-- Render one peer block through the source validator template. -/
def renderPeer (p : PeerBlock) : String :=
  compose_validator p.validator_id p.state_abspath p.contract_abspath p.avm

/-- The coordinator block `deploy` emits for a given contract and backend. -/
def deploy_header_block (contract_name : String) (avm : String) : HeaderBlock :=
  { state_abspath := states_path 0
    contract_abspath := abspath contract_name
    context := abspath (ROOT_DIR ++ "/packages")
    dockerfile := "arb-validator.Dockerfile"
    avm := avm }

/-- The peer blocks `deploy` emits: one per index in `range(1, n_validators)`. -/
def deploy_peer_blocks (contract_name : String) (n_validators : Int) (avm : String) :
    List PeerBlock :=
  (pyRange 1 n_validators).map
    (fun i =>
      { validator_id := i
        state_abspath := states_path i
        contract_abspath := abspath contract_name
        avm := avm })

/-- Well-formedness of the generated topology, as claim C1 states it: the
document is the rendered coordinator block followed by the rendered peer
blocks; there are exactly `nodeCount - 1` peers; their declared identities
are exactly `{1, ..., nodeCount - 1}` in strictly ascending order; and
every block (coordinator and peers) carries the same contract path and
the same backend selector. -/
def TopologyWellFormed (contract_name : String) (n_validators : Int) (avm : String) : Prop :=
  deploy_contents contract_name n_validators avm =
      renderHeader (deploy_header_block contract_name avm)
        ++ String.join ((deploy_peer_blocks contract_name n_validators avm).map renderPeer)
    ∧ (deploy_peer_blocks contract_name n_validators avm).length = (n_validators - 1).toNat
    ∧ (deploy_peer_blocks contract_name n_validators avm).map PeerBlock.validator_id =
        pyRange 1 n_validators
    ∧ List.Pairwise (· < ·)
        ((deploy_peer_blocks contract_name n_validators avm).map PeerBlock.validator_id)
    ∧ (∀ i : Int,
        i ∈ (deploy_peer_blocks contract_name n_validators avm).map PeerBlock.validator_id ↔
          1 ≤ i ∧ i ≤ n_validators - 1)
    ∧ (∀ p ∈ deploy_peer_blocks contract_name n_validators avm,
        p.contract_abspath = (deploy_header_block contract_name avm).contract_abspath
          ∧ p.avm = (deploy_header_block contract_name avm).avm)

theorem pyRange_length (lo hi : Int) : (pyRange lo hi).length = (hi - lo).toNat := by
  rw [pyRange, List.length_map, List.length_range]

theorem pyRange_pairwise (lo hi : Int) : List.Pairwise (· < ·) (pyRange lo hi) := by
  unfold pyRange
  have h : List.Pairwise (· < ·) (List.range (hi - lo).toNat) := by
    rw [List.pairwise_iff_get]
    intro i j hij
    simp only [List.get_eq_getElem, List.getElem_range]
    exact hij
  exact h.map _ (fun a b hab => by omega)

theorem pyRange_mem (lo hi i : Int) : i ∈ pyRange lo hi ↔ lo ≤ i ∧ i < hi := by
  unfold pyRange
  simp only [List.mem_map, List.mem_range]
  constructor
  · rintro ⟨k, hk, rfl⟩
    omega
  · rintro ⟨h1, h2⟩
    exact ⟨(i - lo).toNat, by omega, by omega⟩

theorem deploy_peer_blocks_ids (contract_name : String) (n_validators : Int) (avm : String) :
    (deploy_peer_blocks contract_name n_validators avm).map PeerBlock.validator_id =
      pyRange 1 n_validators := by
  unfold deploy_peer_blocks
  rw [List.map_map]
  simp [Function.comp_def]

/-- Claim C1: for every `nodeCount ≥ 1`, the topology document written by
`deploy` is exactly one coordinator block followed by exactly
`nodeCount - 1` peer blocks, whose declared identities are exactly
`{1, ..., nodeCount - 1}` in ascending order, and every block carries the
same contract path and the same backend selector. -/
theorem topology_structure (contract_name : String) (n_validators : Int) (avm : String)
    (_hn : 1 ≤ n_validators) : TopologyWellFormed contract_name n_validators avm := by
  refine ⟨?_, ?_, ?_, ?_, ?_, ?_⟩
  · unfold deploy_contents renderHeader deploy_header_block deploy_peer_blocks
    rw [List.map_map]
    simp [Function.comp_def, renderPeer]
  · rw [show (deploy_peer_blocks contract_name n_validators avm).length =
        ((deploy_peer_blocks contract_name n_validators avm).map PeerBlock.validator_id).length
        by rw [List.length_map]]
    rw [deploy_peer_blocks_ids, pyRange_length]
  · exact deploy_peer_blocks_ids contract_name n_validators avm
  · rw [deploy_peer_blocks_ids]
    exact pyRange_pairwise 1 n_validators
  · intro i
    rw [deploy_peer_blocks_ids, pyRange_mem]
    omega
  · intro p hp
    simp only [deploy_peer_blocks, List.mem_map] at hp
    obtain ⟨i, _, rfl⟩ := hp
    exact ⟨rfl, rfl⟩

/-- Witness for C1 at `nodeCount = 3`. -/
theorem topology_structure_witness :
    (1 : Int) ≤ 3 ∧ TopologyWellFormed "c.ao" 3 "cpp" :=
  ⟨by decide, topology_structure "c.ao" 3 "cpp" (by decide)⟩

/-! Trace model of the orchestrator.  `deploy` shells out to external
commands through `run`; the model records each step it performs in order,
and an `Env` supplies what the external world answers: the captured
output of `docker images -q NAME`, the exit status of each `docker build`
for a cache, whether `./docker-compose.yml` exists when `halt_docker`
checks, the captured output of `docker ps | grep -e arb-validator | awk`,
the exit status of `docker-compose build`, and whether the
`validator-states` directory exists. -/

/-- One externally visible step of `deploy`, in the order the source
performs them. -/
inductive Step where
  | cacheQuery (name : String)
  | mkdirTmp
  | writeCacheDockerfile (content : String)
  | cacheBuild (name : String)
  | rmTmp
  | composeDown
  | dockerKill
  | dockerRm
  | writeCompose (contents : String)
  | composeBuild
  | rmStateTree
  | setupStates (contract_abspath : String) (n_validators : Int)
  | composeUp
deriving DecidableEq

/-- Responses of the external world to the commands of `deploy` and
filesystem checks.  `cacheBuildExit` is the exit status of the
`docker build -t NAME .tmp` command run by `bootstrap_build_cache`;
note that the source discards this value (`run`, per the Command Runner
interface in the spec, returns the exit code rather than aborting). -/
structure Env where
  imagesQ : String → String
  cacheBuildExit : String → Int
  composeFileExists : Bool
  psMatch : String
  composeBuildExit : Int
  statesDirExists : Bool

/-- The arguments of `deploy(contract_name, n_validators, sudo_flag,
build_flag, up_flag, avm)`. -/
structure Args where
  contract_name : String
  n_validators : Int
  sudo_flag : Bool
  build_flag : Bool
  up_flag : Bool
  avm : String
deriving DecidableEq

/-- Outcome of one `deploy` invocation: the steps performed in order, the
process exit status (`some 1` when the source calls `exit(1)`, `none` on
normal return), and the contents of `docker-compose.yml` on disk
afterwards. -/
structure DeployResult where
  trace : List Step
  exitCode : Option Int
  composeFile : Option String
deriving DecidableEq

/-- Steps performed by `bootstrap_build_cache(name)`: query
`docker images -q name` (captured, quiet); when the captured output is
empty, create `.tmp`, write `DOCKERFILE_CACHE` into it, build the image
and remove `.tmp`.  The exit status of the build is not consulted. -/
def bootstrap_steps (env : Env) (name : String) : List Step :=
  if env.imagesQ name = "" then
    [Step.cacheQuery name, Step.mkdirTmp, Step.writeCacheDockerfile DOCKERFILE_CACHE,
      Step.cacheBuild name, Step.rmTmp]
  else
    [Step.cacheQuery name]

/-- Steps performed by `halt_docker`: `docker-compose down -t 0` when
`./docker-compose.yml` exists, then, when the captured output of
`docker ps | grep -e arb-validator | awk` is nonempty, `docker kill`
followed by `docker rm` on the matching sets. -/
def halt_steps (env : Env) : List Step :=
  (if env.composeFileExists then [Step.composeDown] else [])
    ++ (if env.psMatch = "" then [] else [Step.dockerKill, Step.dockerRm])

/-- The tail of `deploy` after a successful (or skipped) build phase:
remove the old `validator-states` tree when present, repopulate the
per-node state via `setup_states.setup_validator_states_ethbridge`, and
run `docker-compose up` unless only building. -/
def deploy_rest (env : Env) (a : Args) (t : List Step) (contents : String) : DeployResult :=
  let t1 := t ++ (if env.statesDirExists then [Step.rmStateTree] else [])
  let t2 := t1 ++ [Step.setupStates (abspath a.contract_name) a.n_validators]
  let t3 := t2 ++ (if !a.build_flag || a.up_flag then [Step.composeUp] else [])
  { trace := t3, exitCode := none, composeFile := some contents }

/-- The `deploy` orchestrator: bootstrap the two build caches, halt any
previous deployment, overwrite `docker-compose.yml`, then (unless
`up_flag` alone is set) run the build phase, calling `exit(1)` when it
fails; otherwise reset state and (unless `build_flag` alone is set) run
the up phase. -/
def deploy_run (env : Env) (a : Args) : DeployResult :=
  let t1 := bootstrap_steps env "arb-avm-cpp" ++ bootstrap_steps env "arb-validator"
  let t2 := t1 ++ halt_steps env
  let contents := deploy_contents a.contract_name a.n_validators a.avm
  let t3 := t2 ++ [Step.writeCompose contents]
  if !a.up_flag || a.build_flag then
    let t4 := t3 ++ [Step.composeBuild]
    if env.composeBuildExit ≠ 0 then
      { trace := t4, exitCode := some 1, composeFile := some contents }
    else
      deploy_rest env a t4 contents
  else
    deploy_rest env a t3 contents

/-- Phase rank of a step: cache bootstrap 0, halt 1, topology write 2,
build 3, state reset 4, up 5. -/
def phaseOf : Step → Nat
  | Step.cacheQuery _ => 0
  | Step.mkdirTmp => 0
  | Step.writeCacheDockerfile _ => 0
  | Step.cacheBuild _ => 0
  | Step.rmTmp => 0
  | Step.composeDown => 1
  | Step.dockerKill => 1
  | Step.dockerRm => 1
  | Step.writeCompose _ => 2
  | Step.composeBuild => 3
  | Step.rmStateTree => 4
  | Step.setupStates _ _ => 4
  | Step.composeUp => 5

/-- Phase-ordering relation between steps. -/
def stepLE (x y : Step) : Prop := phaseOf x ≤ phaseOf y

theorem phase_bootstrap (env : Env) (name : String) :
    ∀ s ∈ bootstrap_steps env name, phaseOf s = 0 := by
  intro s hs
  unfold bootstrap_steps at hs
  split at hs
  · simp at hs
    rcases hs with rfl | rfl | rfl | rfl | rfl <;> rfl
  · simp at hs
    subst hs
    rfl

theorem phase_halt (env : Env) : ∀ s ∈ halt_steps env, phaseOf s = 1 := by
  intro s hs
  unfold halt_steps at hs
  rw [List.mem_append] at hs
  rcases hs with h | h
  · split at h
    · simp at h
      subst h
      rfl
    · simp at h
  · split at h
    · simp at h
    · simp at h
      rcases h with rfl | rfl <;> rfl

theorem phase_build_seg (c : Bool) :
    ∀ s ∈ (if c then [Step.composeBuild] else []), phaseOf s = 3 := by
  intro s hs
  split at hs
  · simp at hs
    subst hs
    rfl
  · simp at hs

theorem phase_rmstate_seg (c : Bool) :
    ∀ s ∈ (if c then [Step.rmStateTree] else []), phaseOf s = 4 := by
  intro s hs
  split at hs
  · simp at hs
    subst hs
    rfl
  · simp at hs

theorem phase_up_seg (c : Bool) :
    ∀ s ∈ (if c then [Step.composeUp] else []), phaseOf s = 5 := by
  intro s hs
  split at hs
  · simp at hs
    subst hs
    rfl
  · simp at hs

theorem pairwise_const_phase (l : List Step) (c : Nat) (h : ∀ s ∈ l, phaseOf s = c) :
    List.Pairwise stepLE l := by
  induction l with
  | nil => exact List.Pairwise.nil
  | cons a t ih =>
      refine List.Pairwise.cons ?_ (ih ?_)
      · intro b hb
        unfold stepLE
        rw [h a (by simp), h b (by simp [hb])]
      · intro s hs
        exact h s (by simp [hs])

theorem pairwise_phase_append {l1 l2 : List Step}
    (h1 : List.Pairwise stepLE l1) (h2 : List.Pairwise stepLE l2)
    (hb : ∀ x ∈ l1, ∀ y ∈ l2, phaseOf x ≤ phaseOf y) :
    List.Pairwise stepLE (l1 ++ l2) :=
  List.pairwise_append.mpr ⟨h1, h2, hb⟩

/-- The trace of `deploy` when the build phase succeeds, written as one
explicit concatenation of its phase segments. -/
theorem deploy_run_trace (env : Env) (a : Args) (hB : env.composeBuildExit = 0) :
    (deploy_run env a).trace =
      bootstrap_steps env "arb-avm-cpp" ++ bootstrap_steps env "arb-validator"
        ++ halt_steps env
        ++ [Step.writeCompose (deploy_contents a.contract_name a.n_validators a.avm)]
        ++ (if !a.up_flag || a.build_flag then [Step.composeBuild] else [])
        ++ (if env.statesDirExists then [Step.rmStateTree] else [])
        ++ [Step.setupStates (abspath a.contract_name) a.n_validators]
        ++ (if !a.build_flag || a.up_flag then [Step.composeUp] else []) := by
  unfold deploy_run deploy_rest
  by_cases hbu : (!a.up_flag || a.build_flag) = true
  · simp only [hbu, if_true, hB]
    simp [List.append_assoc]
  · simp only [Bool.not_eq_true] at hbu
    simp [hbu, List.append_assoc]

/-- Whatever the environment answers, `deploy` writes `docker-compose.yml` with the generated
contents, whatever the environment answers. -/
theorem deploy_run_composeFile (env : Env) (a : Args) :
    (deploy_run env a).composeFile =
      some (deploy_contents a.contract_name a.n_validators a.avm) := by
  unfold deploy_run deploy_rest
  by_cases hbu : (!a.up_flag || a.build_flag) = true
  · simp only [hbu, if_true]
    by_cases hx : env.composeBuildExit ≠ 0 <;> simp [hx]
  · simp only [Bool.not_eq_true] at hbu
    simp [hbu]

theorem not_mem_of_phase {s : Step} {l : List Step} {c : Nat}
    (hl : ∀ x ∈ l, phaseOf x = c) (hs : phaseOf s ≠ c) : s ∉ l :=
  fun hm => hs (hl s hm)

theorem bound_of_phase {l : List Step} {c : Nat} (hl : ∀ x ∈ l, phaseOf x = c) :
    ∀ x ∈ l, phaseOf x ≤ c :=
  fun x hx => le_of_eq (hl x hx)

/-- Appending a constant-phase segment whose phase dominates the bound of
the accumulated trace keeps the trace phase-sorted and raises the bound. -/
theorem pairwise_snoc_seg {l seg : List Step} {k c : Nat}
    (hp : List.Pairwise stepLE l) (hbound : ∀ s ∈ l, phaseOf s ≤ k)
    (hseg : ∀ s ∈ seg, phaseOf s = c) (hkc : k ≤ c) :
    List.Pairwise stepLE (l ++ seg) ∧ ∀ s ∈ l ++ seg, phaseOf s ≤ c := by
  constructor
  · refine pairwise_phase_append hp (pairwise_const_phase seg c hseg) ?_
    intro x hx y hy
    rw [hseg y hy]
    exact le_trans (hbound x hx) hkc
  · intro s hs
    rw [List.mem_append] at hs
    rcases hs with h | h
    · exact le_trans (hbound s h) hkc
    · exact le_of_eq (hseg s h)

theorem phase_singleton (s0 : Step) : ∀ s ∈ [s0], phaseOf s = phaseOf s0 := by
  intro s hs
  simp at hs
  subst hs
  rfl

theorem phase_write_seg (c : String) :
    ∀ s ∈ [Step.writeCompose c], phaseOf s = 2 := by
  intro s hs
  simp at hs
  subst hs
  rfl

theorem phase_setup_seg (c : String) (n : Int) :
    ∀ s ∈ [Step.setupStates c n], phaseOf s = 4 := by
  intro s hs
  simp at hs
  subst hs
  rfl

/-- The successful-build trace of `deploy` is sorted by phase rank. -/
theorem deploy_run_trace_sorted (env : Env) (a : Args)
    (hB : env.composeBuildExit = 0) :
    List.Pairwise stepLE (deploy_run env a).trace := by
  rw [deploy_run_trace env a hB]
  have h1 := pairwise_snoc_seg (pairwise_const_phase _ 0 (phase_bootstrap env "arb-avm-cpp"))
    (bound_of_phase (phase_bootstrap env "arb-avm-cpp"))
    (phase_bootstrap env "arb-validator") (le_refl 0)
  have h2 := pairwise_snoc_seg h1.1 h1.2 (phase_halt env) (by decide)
  have h3 := pairwise_snoc_seg h2.1 h2.2
    (phase_write_seg (deploy_contents a.contract_name a.n_validators a.avm)) (by decide)
  have h4 := pairwise_snoc_seg h3.1 h3.2
    (phase_build_seg (!a.up_flag || a.build_flag)) (by decide)
  have h5 := pairwise_snoc_seg h4.1 h4.2 (phase_rmstate_seg env.statesDirExists) (by decide)
  have h6 := pairwise_snoc_seg h5.1 h5.2
    (phase_setup_seg (abspath a.contract_name) a.n_validators) (le_refl 4)
  have h7 := pairwise_snoc_seg h6.1 h6.2
    (phase_up_seg (!a.build_flag || a.up_flag)) (by decide)
  exact h7.1

/-- The conclusion of claim C2: the steps of a (valid, successful) deploy
are sorted by phase rank, so state reset never begins before a halt step
and the up phase never begins before state reset (the two explicit index
conjuncts); the build phase runs iff `up_flag` is not set, the up phase
runs iff `build_flag` is not set, and the state-reset phase always runs. -/
def DeployPhaseOrder (env : Env) (a : Args) : Prop :=
  List.Pairwise stepLE (deploy_run env a).trace
    ∧ Step.setupStates (abspath a.contract_name) a.n_validators ∈ (deploy_run env a).trace
    ∧ (Step.composeBuild ∈ (deploy_run env a).trace ↔ a.up_flag = false)
    ∧ (Step.composeUp ∈ (deploy_run env a).trace ↔ a.build_flag = false)
    ∧ (∀ i j : Fin (deploy_run env a).trace.length,
        phaseOf ((deploy_run env a).trace.get i) = 1 →
        phaseOf ((deploy_run env a).trace.get j) = 4 → i < j)
    ∧ (∀ i j : Fin (deploy_run env a).trace.length,
        phaseOf ((deploy_run env a).trace.get i) = 4 →
        phaseOf ((deploy_run env a).trace.get j) = 5 → i < j)

theorem ordered_of_pairwise {l : List Step} (hp : List.Pairwise stepLE l)
    {p q : Nat} (hpq : p < q) :
    ∀ i j : Fin l.length, phaseOf (l.get i) = p → phaseOf (l.get j) = q → i < j := by
  intro i j hi hj
  rcases lt_trichotomy i j with h | h | h
  · exact h
  · subst h
    rw [hi] at hj
    omega
  · have hle : phaseOf (l.get j) ≤ phaseOf (l.get i) :=
      List.pairwise_iff_get.mp hp j i h
    rw [hi, hj] at hle
    omega

/-- Claim C2: for every valid request (flags not both set) whose build
phase succeeds, the deploy phases run in the fixed order
cache-bootstrap, halt, topology write, build, state reset, up; the build
phase runs iff `up_flag` is unset, the up phase runs iff `build_flag` is
unset, and state reset always runs. -/
theorem deploy_phase_order (env : Env) (a : Args)
    (hv : ¬(a.build_flag = true ∧ a.up_flag = true))
    (hB : env.composeBuildExit = 0) : DeployPhaseOrder env a := by
  have hpw := deploy_run_trace_sorted env a hB
  have h_tr := deploy_run_trace env a hB
  refine ⟨hpw, ?_, ?_, ?_,
    ordered_of_pairwise hpw (by decide), ordered_of_pairwise hpw (by decide)⟩
  · rw [h_tr]
    simp
  · rcases hup : a.up_flag with _ | _
    · constructor
      · intro _
        rfl
      · intro _
        rw [h_tr]
        simp [hup]
    · have hbf : a.build_flag = false := by
        rcases hb : a.build_flag with _ | _
        · rfl
        · exact absurd ⟨hb, hup⟩ hv
      have h_tr2 : (deploy_run env a).trace =
          bootstrap_steps env "arb-avm-cpp" ++ bootstrap_steps env "arb-validator"
            ++ halt_steps env
            ++ [Step.writeCompose (deploy_contents a.contract_name a.n_validators a.avm)]
            ++ (if env.statesDirExists then [Step.rmStateTree] else [])
            ++ [Step.setupStates (abspath a.contract_name) a.n_validators]
            ++ [Step.composeUp] := by
        rw [h_tr, hup, hbf]
        simp
      constructor
      · intro hmem
        rw [h_tr2] at hmem
        simp only [List.mem_append] at hmem
        rcases hmem with (((((h | h) | h) | h) | h) | h) | h
        · exact absurd h (not_mem_of_phase (phase_bootstrap env "arb-avm-cpp") (by decide))
        · exact absurd h (not_mem_of_phase (phase_bootstrap env "arb-validator") (by decide))
        · exact absurd h (not_mem_of_phase (phase_halt env) (by decide))
        · exact absurd h (not_mem_of_phase (phase_write_seg _) (by decide))
        · exact absurd h (not_mem_of_phase (phase_rmstate_seg env.statesDirExists) (by decide))
        · exact absurd h (not_mem_of_phase (phase_setup_seg _ _) (by decide))
        · exact absurd h (not_mem_of_phase (phase_singleton Step.composeUp) (by decide))
      · intro hfalse
        exact absurd hfalse (by decide)
  · rcases hbf : a.build_flag with _ | _
    · constructor
      · intro _
        rfl
      · intro _
        rw [h_tr]
        simp [hbf]
    · have hup : a.up_flag = false := by
        rcases hu : a.up_flag with _ | _
        · rfl
        · exact absurd ⟨hbf, hu⟩ hv
      have h_tr2 : (deploy_run env a).trace =
          bootstrap_steps env "arb-avm-cpp" ++ bootstrap_steps env "arb-validator"
            ++ halt_steps env
            ++ [Step.writeCompose (deploy_contents a.contract_name a.n_validators a.avm)]
            ++ [Step.composeBuild]
            ++ (if env.statesDirExists then [Step.rmStateTree] else [])
            ++ [Step.setupStates (abspath a.contract_name) a.n_validators] := by
        rw [h_tr, hup, hbf]
        simp
      constructor
      · intro hmem
        rw [h_tr2] at hmem
        simp only [List.mem_append] at hmem
        rcases hmem with (((((h | h) | h) | h) | h) | h) | h
        · exact absurd h (not_mem_of_phase (phase_bootstrap env "arb-avm-cpp") (by decide))
        · exact absurd h (not_mem_of_phase (phase_bootstrap env "arb-validator") (by decide))
        · exact absurd h (not_mem_of_phase (phase_halt env) (by decide))
        · exact absurd h (not_mem_of_phase (phase_write_seg _) (by decide))
        · exact absurd h (not_mem_of_phase (phase_singleton Step.composeBuild) (by decide))
        · exact absurd h (not_mem_of_phase (phase_rmstate_seg env.statesDirExists) (by decide))
        · exact absurd h (not_mem_of_phase (phase_setup_seg _ _) (by decide))
      · intro hfalse
        exact absurd hfalse (by decide)

/-! Concrete environments and requests used by witnesses and
counterexamples. -/

/-- A normal environment: no cache images yet, a previous compose file
and matching running containers exist, every build succeeds, the state
directory exists. -/
def envN : Env :=
  { imagesQ := fun _ => ""
    cacheBuildExit := fun _ => 0
    composeFileExists := true
    psMatch := "x"
    composeBuildExit := 0
    statesDirExists := true }

/-- Like `envN` but the `docker-compose build` phase fails. -/
def envF : Env := { envN with composeBuildExit := 1 }

/-- Like `envN` but the cache `docker build` commands fail. -/
def envC : Env := { envN with cacheBuildExit := fun _ => 1 }

/-- A default request: two validators, no flags. -/
def argsD : Args :=
  { contract_name := "c.ao"
    n_validators := 2
    sudo_flag := false
    build_flag := false
    up_flag := false
    avm := "cpp" }

/-- The default request with `n_validators = 0`. -/
def argsZ : Args := { argsD with n_validators := 0 }

/-- Witness for C2 at the default request in the normal environment. -/
theorem deploy_phase_order_witness :
    ¬(argsD.build_flag = true ∧ argsD.up_flag = true)
      ∧ envN.composeBuildExit = 0
      ∧ DeployPhaseOrder envN argsD :=
  ⟨by decide, by decide, deploy_phase_order envN argsD (by decide) (by decide)⟩

/-- The conclusion of claim C5: when the build phase fails, `deploy`
exits with status 1, neither the state-reset steps nor the up phase ever
appear in the trace, and the freshly generated topology document is on
disk. -/
def BuildFailureAborted (env : Env) (a : Args) : Prop :=
  (deploy_run env a).exitCode = some 1
    ∧ (∀ c n, Step.setupStates c n ∉ (deploy_run env a).trace)
    ∧ Step.rmStateTree ∉ (deploy_run env a).trace
    ∧ Step.composeUp ∉ (deploy_run env a).trace
    ∧ (deploy_run env a).composeFile =
        some (deploy_contents a.contract_name a.n_validators a.avm)

/-- The trace of `deploy` when the build phase runs and fails. -/
theorem deploy_run_abort_trace (env : Env) (a : Args)
    (hc : (!a.up_flag || a.build_flag) = true) (hx : env.composeBuildExit ≠ 0) :
    deploy_run env a =
      { trace := bootstrap_steps env "arb-avm-cpp" ++ bootstrap_steps env "arb-validator"
          ++ halt_steps env
          ++ [Step.writeCompose (deploy_contents a.contract_name a.n_validators a.avm)]
          ++ [Step.composeBuild]
        exitCode := some 1
        composeFile := some (deploy_contents a.contract_name a.n_validators a.avm) } := by
  unfold deploy_run
  simp [hc, hx]

/-- Claim C5: when the runtime build phase exits non-zero, `deploy`
terminates with a nonzero process exit; state reset and the up phase
never run, and the freshly written topology document remains on disk. -/
theorem build_failure_aborts (env : Env) (a : Args)
    (hrun : a.up_flag = false ∨ a.build_flag = true)
    (hx : env.composeBuildExit ≠ 0) : BuildFailureAborted env a := by
  have hc : (!a.up_flag || a.build_flag) = true := by
    rcases hrun with h | h <;> simp [h]
  have habort := deploy_run_abort_trace env a hc hx
  refine ⟨by rw [habort], ?_, ?_, ?_, by rw [habort]⟩
  · intro c n
    rw [habort]
    simp only [List.mem_append]
    rintro ((((h | h) | h) | h) | h)
    · exact not_mem_of_phase (phase_bootstrap env "arb-avm-cpp") (by simp [phaseOf]) h
    · exact not_mem_of_phase (phase_bootstrap env "arb-validator") (by simp [phaseOf]) h
    · exact not_mem_of_phase (phase_halt env) (by simp [phaseOf]) h
    · exact not_mem_of_phase (phase_write_seg _) (by simp [phaseOf]) h
    · exact not_mem_of_phase (phase_singleton Step.composeBuild) (by simp [phaseOf]) h
  · rw [habort]
    simp only [List.mem_append]
    rintro ((((h | h) | h) | h) | h)
    · exact not_mem_of_phase (phase_bootstrap env "arb-avm-cpp") (by decide) h
    · exact not_mem_of_phase (phase_bootstrap env "arb-validator") (by decide) h
    · exact not_mem_of_phase (phase_halt env) (by decide) h
    · exact not_mem_of_phase (phase_write_seg _) (by decide) h
    · exact not_mem_of_phase (phase_singleton Step.composeBuild) (by decide) h
  · rw [habort]
    simp only [List.mem_append]
    rintro ((((h | h) | h) | h) | h)
    · exact not_mem_of_phase (phase_bootstrap env "arb-avm-cpp") (by decide) h
    · exact not_mem_of_phase (phase_bootstrap env "arb-validator") (by decide) h
    · exact not_mem_of_phase (phase_halt env) (by decide) h
    · exact not_mem_of_phase (phase_write_seg _) (by decide) h
    · exact not_mem_of_phase (phase_singleton Step.composeBuild) (by decide) h

/-- Witness for C5: default request, compose build failing. -/
theorem build_failure_aborts_witness :
    (argsD.up_flag = false ∨ argsD.build_flag = true)
      ∧ envF.composeBuildExit ≠ 0
      ∧ BuildFailureAborted envF argsD :=
  ⟨Or.inl (by decide), by decide,
    build_failure_aborts envF argsD (Or.inl (by decide)) (by decide)⟩

/-- Claim C9: topology generation is deterministic.  The document
`deploy` writes depends only on `(contract_name, n_validators, avm)`:
two invocations agreeing on those — whatever the environment answers and
whatever the other arguments are — write byte-identical contents. -/
theorem generate_deterministic (env1 env2 : Env) (a1 a2 : Args)
    (hc : a1.contract_name = a2.contract_name)
    (hn : a1.n_validators = a2.n_validators)
    (ha : a1.avm = a2.avm) :
    (deploy_run env1 a1).composeFile = (deploy_run env2 a2).composeFile := by
  rw [deploy_run_composeFile, deploy_run_composeFile, hc, hn, ha]

/-- Witness for C9: same generate inputs, different environments and
flags. -/
theorem generate_deterministic_witness :
    argsD.contract_name = ({ argsD with build_flag := true, sudo_flag := true }
        : Args).contract_name
      ∧ argsD.n_validators = ({ argsD with build_flag := true, sudo_flag := true }
        : Args).n_validators
      ∧ argsD.avm = ({ argsD with build_flag := true, sudo_flag := true } : Args).avm
      ∧ (deploy_run envN argsD).composeFile =
          (deploy_run envF { argsD with build_flag := true, sudo_flag := true }).composeFile :=
  ⟨rfl, rfl, rfl,
    generate_deterministic envN envF argsD { argsD with build_flag := true, sudo_flag := true }
      rfl rfl rfl⟩

theorem writeCompose_mem (env : Env) (a : Args) :
    Step.writeCompose (deploy_contents a.contract_name a.n_validators a.avm) ∈
      (deploy_run env a).trace := by
  unfold deploy_run deploy_rest
  by_cases hbu : (!a.up_flag || a.build_flag) = true
  · by_cases hx : env.composeBuildExit ≠ 0
    · simp [hbu, hx]
    · simp [hbu, hx]
  · simp only [Bool.not_eq_true] at hbu
    simp [hbu]

/-- Counterexample for C3: at `nodeCount = 0` the request is not
rejected — `deploy` runs to completion (`exitCode = none`) and writes a
topology document; the peer range `range(1, 0)` is simply empty. -/
theorem nodecount_zero_not_rejected :
    (deploy_run envN argsZ).exitCode = none
      ∧ Step.writeCompose (deploy_contents "c.ao" 0 "cpp") ∈ (deploy_run envN argsZ).trace
      ∧ deploy_peer_blocks "c.ao" 0 "cpp" = [] := by
  refine ⟨rfl, writeCompose_mem envN argsZ, rfl⟩

/-- The conclusion of the amended C3: for `nodeCount ≤ 0` the document
`deploy` writes is the coordinator header alone, with zero peer blocks. -/
def HeaderOnlyDocument (env : Env) (a : Args) : Prop :=
  (deploy_run env a).composeFile =
      some (compose_header (states_path 0) (abspath a.contract_name)
        (abspath (ROOT_DIR ++ "/packages")) "arb-validator.Dockerfile" a.avm)
    ∧ deploy_peer_blocks a.contract_name a.n_validators a.avm = []

/-- Amended C3: `deploy` performs no validation of `nodeCount`; a request
with `nodeCount ≤ 0` is not rejected, and the emitted document is the
coordinator header with an empty peer set (the peer range is empty, never
negative). -/
theorem nodecount_nonpositive_header_only (env : Env) (a : Args)
    (hn : a.n_validators ≤ 0) : HeaderOnlyDocument env a := by
  have h0 : pyRange 1 a.n_validators = [] := by
    unfold pyRange
    have ht : (a.n_validators - 1).toNat = 0 := by omega
    rw [ht]
    rfl
  constructor
  · rw [deploy_run_composeFile]
    unfold deploy_contents
    rw [h0]
    simp [String.join, String.append_empty]
  · unfold deploy_peer_blocks
    rw [h0]
    rfl

/-- Witness for the amended C3 at `nodeCount = 0`. -/
theorem nodecount_nonpositive_header_only_witness :
    argsZ.n_validators ≤ 0 ∧ HeaderOnlyDocument envN argsZ :=
  ⟨by decide, nodecount_nonpositive_header_only envN argsZ (by decide)⟩

theorem composeDown_mem_of_file (env : Env) (a : Args)
    (h : env.composeFileExists = true) :
    Step.composeDown ∈ (deploy_run env a).trace := by
  have hh : Step.composeDown ∈ halt_steps env := by
    unfold halt_steps
    rw [h]
    simp
  unfold deploy_run deploy_rest
  by_cases hbu : (!a.up_flag || a.build_flag) = true
  · by_cases hx : env.composeBuildExit ≠ 0
    · simp [hbu, hx, hh]
    · simp [hbu, hx, hh]
  · simp only [Bool.not_eq_true] at hbu
    simp [hbu, hh]

theorem cacheBuild_mem_cpp (env : Env) (a : Args)
    (h : env.imagesQ "arb-avm-cpp" = "") :
    Step.cacheBuild "arb-avm-cpp" ∈ (deploy_run env a).trace := by
  have hb : Step.cacheBuild "arb-avm-cpp" ∈ bootstrap_steps env "arb-avm-cpp" := by
    unfold bootstrap_steps
    simp [h]
  unfold deploy_run deploy_rest
  by_cases hbu : (!a.up_flag || a.build_flag) = true
  · by_cases hx : env.composeBuildExit ≠ 0
    · simp [hbu, hx, hb]
    · simp [hbu, hx, hb]
  · simp only [Bool.not_eq_true] at hbu
    simp [hbu, hb]

/-- Counterexample for C4: with both cache images absent and every
cache `docker build` failing (exit 1), the deploy does not abort — the
halt phase (`docker-compose down`) runs, the topology document is
generated, and the run completes normally. -/
theorem cache_build_failure_not_abort :
    envC.cacheBuildExit "arb-avm-cpp" = 1
      ∧ Step.cacheBuild "arb-avm-cpp" ∈ (deploy_run envC argsD).trace
      ∧ Step.composeDown ∈ (deploy_run envC argsD).trace
      ∧ Step.writeCompose (deploy_contents "c.ao" 2 "cpp") ∈ (deploy_run envC argsD).trace
      ∧ (deploy_run envC argsD).exitCode = none := by
  refine ⟨rfl, cacheBuild_mem_cpp envC argsD rfl, composeDown_mem_of_file envC argsD rfl,
    writeCompose_mem envC argsD, rfl⟩

/-- Amended C4: the exit status of the underlying cache
build command is discarded, so a cache build failure does not abort the
deploy: the whole run is unchanged by that status, the topology document
is always generated, and the halt phase still runs whenever a previous
compose file exists. -/
theorem cache_build_exit_ignored (env : Env) (f : String → Int) (a : Args) :
    deploy_run { env with cacheBuildExit := f } a = deploy_run env a
      ∧ Step.writeCompose (deploy_contents a.contract_name a.n_validators a.avm) ∈
          (deploy_run env a).trace
      ∧ Step.composeDown ∈ (deploy_run { env with composeFileExists := true } a).trace :=
  ⟨rfl, writeCompose_mem env a, composeDown_mem_of_file _ a rfl⟩

/-! State-level model of `halt_docker` (claims C6 and C10).  The docker
container state is a list of containers; each carries its id (the first
column `awk` extracts), its `docker ps` output line (which `grep`
matches), and whether it is running.  The workspace filesystem — the
compose document and the validator-states tree — is carried alongside so
frame properties can be stated. -/

def listPrefixOf : List Char → List Char → Bool
  | [], _ => true
  | _ :: _, [] => false
  | a :: as, b :: bs => a == b && listPrefixOf as bs

def listInfixOf (p : List Char) : List Char → Bool
  | [] => listPrefixOf p []
  | b :: bs => listPrefixOf p (b :: bs) || listInfixOf p bs

/-- One docker container: id, `docker ps` line, running flag. -/
structure Container where
  cid : Nat
  line : String
  running : Bool
deriving DecidableEq

/-- The workspace filesystem: the topology document (contents, when
present) and the per-node state tree (the node indices present, when the
root exists). -/
structure Fs where
  composeFile : Option String
  validatorStates : Option (List Int)
deriving DecidableEq

/-- Docker container state plus the workspace filesystem. -/
structure World where
  fs : Fs
  containers : List Container
deriving DecidableEq

/-- Whether `grep -e arb-validator` matches the `docker ps` line of a container. -/
def matchesArb (c : Container) : Bool :=
  listInfixOf "arb-validator".toList c.line.toList

/-- Output of `docker ps | grep -e arb-validator | awk`: ids of the
running containers whose line matches. -/
def ps_match_ids (cs : List Container) : List Nat :=
  (cs.filter (fun c => c.running && matchesArb c)).map Container.cid

/-- Output of `docker ps -a | grep -e arb-validator | awk`: ids of all
(running or stopped) containers whose line matches. -/
def ps_a_match_ids (cs : List Container) : List Nat :=
  (cs.filter (fun c => matchesArb c)).map Container.cid

/-- Command `docker kill $(docker ps | grep ... | awk ...)`: stop the running
matching containers. -/
def kill_matching (cs : List Container) : List Container :=
  cs.map (fun c => if c.cid ∈ ps_match_ids cs then { c with running := false } else c)

/-- Command `docker rm $(docker ps -a | grep ... | awk ...)`: remove every
matching container from the full list. -/
def rm_matching (cs : List Container) : List Container :=
  cs.filter (fun c => decide (c.cid ∉ ps_a_match_ids cs))

/-- Function `halt_docker(sudo_flag)`: when `./docker-compose.yml` exists, run
`docker-compose down -t 0` (an external collaborator acting on container
state, passed in as `down`); then, when the captured
`docker ps | grep | awk` output is nonempty, kill the running matching
containers and remove the matching set from the full list. -/
def halt_docker (down : List Container → List Container) (w : World) : World :=
  let cs1 := if w.fs.composeFile.isSome then down w.containers else w.containers
  if ps_match_ids cs1 = [] then
    { fs := w.fs, containers := cs1 }
  else
    { fs := w.fs, containers := rm_matching (kill_matching cs1) }

/-- Claim C10: `halt_docker` issues only container-runtime commands and
never touches the workspace filesystem — for every initial world and
every behaviour of the external `docker-compose down`, the topology
document and the per-node state tree are exactly as before. -/
theorem halt_preserves_fs (down : List Container → List Container) (w : World) :
    (halt_docker down w).fs = w.fs := by
  simp only [halt_docker]
  split <;> split <;> rfl

theorem rm_matching_no_match (cs : List Container) :
    ∀ c ∈ rm_matching cs, matchesArb c = false := by
  intro c hc
  unfold rm_matching at hc
  rw [List.mem_filter] at hc
  obtain ⟨hmem, hkeep⟩ := hc
  rw [decide_eq_true_eq] at hkeep
  by_contra hmatch
  rw [Bool.not_eq_false] at hmatch
  exact hkeep (List.mem_map_of_mem _ (List.mem_filter.mpr ⟨hmem, hmatch⟩))

/-- A stopped leftover container matching the naming convention, with no
topology document present. -/
def w6s : World :=
  { fs := { composeFile := none, validatorStates := none }
    containers := [{ cid := 7, line := "7 arb-validator arb-validator1 Exited", running := false }] }

/-- Counterexample for C6: with no topology document and a single stopped
container matching the naming convention, `halt_docker` removes nothing —
a matching container remains in the full list after halt. -/
theorem halt_stopped_leftover :
    (halt_docker (fun cs => cs) w6s).containers.filter (fun c => matchesArb c) ≠ []
      ∧ w6s.fs.composeFile = none := by
  refine ⟨by decide, rfl⟩

/-- Amended C6: when at least one matching container is running at the
time halt scans `docker ps` (after any `docker-compose down`), zero
containers matching the naming convention remain in the full container
list; when no matching container is running, the kill/remove pass is
skipped entirely and stopped matching containers survive. -/
theorem halt_running_match_removes_all (down : List Container → List Container) (w : World)
    (h : ps_match_ids
      (if w.fs.composeFile.isSome then down w.containers else w.containers) ≠ []) :
    (halt_docker down w).containers.filter (fun c => matchesArb c) = [] := by
  unfold halt_docker
  rw [if_neg h]
  rw [List.filter_eq_nil_iff]
  intro c hc
  have hfalse := rm_matching_no_match _ c hc
  simp [hfalse]

/-- A running container matching the naming convention, no topology
document. -/
def w6r : World :=
  { fs := { composeFile := none, validatorStates := none }
    containers :=
      [{ cid := 3, line := "3 arb-validator arb-validator1 Up", running := true },
        { cid := 7, line := "7 arb-validator arb-validator2 Exited", running := false }] }

/-- Witness for the amended C6: a running and a stopped matching
container; after halt no matching container remains. -/
theorem halt_running_match_removes_all_witness :
    ps_match_ids
        (if w6r.fs.composeFile.isSome then (fun cs => cs) w6r.containers
          else w6r.containers) ≠ []
      ∧ (halt_docker (fun cs => cs) w6r).containers.filter (fun c => matchesArb c) = [] :=
  ⟨by decide, halt_running_match_removes_all (fun cs => cs) w6r (by decide)⟩

/-! State-level model of `bootstrap_build_cache` (claim C7): the docker
image store is the list of image names present; `docker images -q NAME`
prints the image id when present and nothing otherwise; on success,
`docker build -t NAME .tmp` adds the name to the store.  `buildOk` is
whether the underlying build command succeeds. -/

/-- Captured output of `docker images -q name` against an image store. -/
def docker_images_q (images : List String) (name : String) : String :=
  if name ∈ images then "imageid" else ""

/-- The docker image store. -/
structure CacheState where
  images : List String
deriving DecidableEq

/-- Function `bootstrap_build_cache(name)` on the image store: when the quiet
image query comes back empty, run the build (one real build; on success
the image is tagged into the store); otherwise do nothing.  Returns the
new store and the number of build invocations performed. -/
def bootstrap_build_cache (buildOk : Bool) (s : CacheState) (name : String) :
    CacheState × Nat :=
  if docker_images_q s.images name = "" then
    ({ images := if buildOk then name :: s.images else s.images }, 1)
  else
    (s, 0)

/-- Claim C7: cache bootstrap is idempotent.  For every store and name,
if an image with that name already exists the bootstrap performs zero
build invocations (whatever the build command would do); and two
consecutive bootstraps whose underlying build succeeds perform at most
one real build in total. -/
theorem bootstrap_idempotent (ok : Bool) (s : CacheState) (name : String) :
    (name ∈ s.images → (bootstrap_build_cache ok s name).2 = 0)
      ∧ (bootstrap_build_cache true s name).2
          + (bootstrap_build_cache true (bootstrap_build_cache true s name).1 name).2 ≤ 1 := by
  constructor
  · intro h
    simp [bootstrap_build_cache, docker_images_q, h]
  · by_cases h : name ∈ s.images
    · simp [bootstrap_build_cache, docker_images_q, h]
    · simp [bootstrap_build_cache, docker_images_q, h]

/-- An image store already holding the first cache image. -/
def stateW : CacheState := { images := ["arb-avm-cpp"] }

/-- Witness for C7 with the cache already present. -/
theorem bootstrap_idempotent_witness :
    "arb-avm-cpp" ∈ stateW.images
      ∧ (bootstrap_build_cache true stateW "arb-avm-cpp").2 = 0
      ∧ (bootstrap_build_cache true stateW "arb-avm-cpp").2
          + (bootstrap_build_cache true (bootstrap_build_cache true stateW "arb-avm-cpp").1
              "arb-avm-cpp").2 ≤ 1 :=
  ⟨by decide, (bootstrap_idempotent true stateW "arb-avm-cpp").1 (by decide),
    (bootstrap_idempotent true stateW "arb-avm-cpp").2⟩

/-! CLI model (claim C8).  `main` declares `--build` and `--up` in an
argparse mutually exclusive group and restricts `--avm` to
`{cpp, go, test}`; a command line violating either is rejected by the
parser before `deploy` is invoked. -/

/-- The parsed command-line options as given by the user. -/
structure CliInput where
  contract : String
  n_validators : Int
  sudo_opt : Bool
  build : Bool
  up : Bool
  avm : String
deriving DecidableEq

/-- Modelled from the argparse declarations in `main`: a mutually
exclusive group rejects a command line setting both `--build` and
`--up`; the `choices` list rejects an unknown `--avm`; otherwise the
arguments are passed to `deploy` unchanged (in particular `n_validators`
is not validated). -/
def parse_args (c : CliInput) : Except String Args :=
  if c.build && c.up then
    Except.error "argument --up: not allowed with argument --build"
  else if !(["cpp", "go", "test"].contains c.avm) then
    Except.error "argument -a/--avm: invalid choice"
  else
    Except.ok
      { contract_name := c.contract
        n_validators := c.n_validators
        sudo_flag := c.sudo_opt
        build_flag := c.build
        up_flag := c.up
        avm := c.avm }

/-- Function `main`: parse the command line, then run `deploy` on the parsed
arguments. -/
def main_run (env : Env) (c : CliInput) : Except String DeployResult :=
  match parse_args c with
  | Except.error e => Except.error e
  | Except.ok a => Except.ok (deploy_run env a)

/-- The commands executed by one `main` invocation: none when the parser
rejects the command line. -/
def commandsOf : Except String DeployResult → List Step
  | Except.error _ => []
  | Except.ok r => r.trace

/-- Claim C8: a request with both `buildOnly` and `upOnly` set is
rejected at intake — `main` fails in the parser, `deploy` is never
entered, and no command is executed. -/
theorem both_flags_rejected (env : Env) (c : CliInput)
    (hb : c.build = true) (hu : c.up = true) :
    main_run env c = Except.error "argument --up: not allowed with argument --build"
      ∧ commandsOf (main_run env c) = [] := by
  have hp : parse_args c = Except.error "argument --up: not allowed with argument --build" := by
    unfold parse_args
    rw [hb, hu]
    rfl
  unfold main_run
  rw [hp]
  exact ⟨rfl, rfl⟩

/-- A command line setting both `--build` and `--up`. -/
def cliW : CliInput :=
  { contract := "c.ao", n_validators := 2, sudo_opt := false, build := true, up := true, avm := "cpp" }

/-- Witness for C8. -/
theorem both_flags_rejected_witness :
    cliW.build = true ∧ cliW.up = true
      ∧ main_run envN cliW = Except.error "argument --up: not allowed with argument --build"
      ∧ commandsOf (main_run envN cliW) = [] :=
  ⟨rfl, rfl, (both_flags_rejected envN cliW rfl rfl).1,
    (both_flags_rejected envN cliW rfl rfl).2⟩

end ArbDeploy
